import Mathlib

/-!
Shallow embedding of the isdnc web application's authentication, session,
validation and logging core, together with theorems settling the frozen
claims about its natural-language specification.

Sources embedded:
  - the dnc-history / dnc-lookup POST route handlers,
  - the register and forgot-password POST route handlers,
  - the NextAuth credentials `authorize` callback,
  - the Winston logger's `maskPhoneNumbers` format and transport wiring,
  - the MSSQL `buildConfig` / lazy pool acquisition,
  - (spec-modelled) the session token issue/verify pair used by the
    Route Guard, whose implementation lives inside the NextAuth library
    and is not part of this repository's sources.
-/

/-! ## JavaScript-flavoured string helpers -/

/-- The regex class `\s` (the ASCII whitespace it matches), also the
characters `String.prototype.trim` strips. -/
def jsSpace (c : Char) : Bool :=
  c = ' ' || c = '\t' || c = '\n' || c = '\r' || c = '\x0b' || c = '\x0c'

/-- `s.trim()`: strip leading and trailing whitespace. -/
def jsTrim (s : String) : String :=
  ⟨((s.data.dropWhile fun c => jsSpace c).reverse.dropWhile fun c => jsSpace c).reverse⟩

/-- `s.toLowerCase()` on the ASCII range. -/
def jsToLower (s : String) : String :=
  ⟨s.data.map Char.toLower⟩

/-- `s.includes(c)` for a single-character needle. -/
def jsIncludes (s : String) (c : Char) : Bool :=
  s.data.contains c

/-- JavaScript string falsiness: only the empty string is falsy. -/
def jsFalsyStr (s : String) : Bool :=
  s == ""

/-- Falsiness of an optional string field (`undefined` or `""`). -/
def jsFalsyOpt (o : Option String) : Bool :=
  match o with
  | none => true
  | some s => jsFalsyStr s

/-- `s.replace(/\D/g, "")` — keep only the decimal digits of a string. -/
def stripNonDigits (s : String) : String :=
  ⟨s.data.filter Char.isDigit⟩

/-- `list[i]` in JavaScript destructuring: out-of-range yields `undefined`,
which stringifies to the given default inside a template literal. -/
def jsIndexOr (l : List String) (i : Nat) (d : String) : String :=
  (l.get? i).getD d

/-- The string `` `${year}-${month}-${day}` `` built by the dnc-lookup handler
from `lookupDate.split("/")` destructured as `[month, day, year]`. -/
def lookupIsoString (d : String) : String :=
  let parts := d.splitOn "/"
  let month := jsIndexOr parts 0 "undefined"
  let day := jsIndexOr parts 1 "undefined"
  let year := jsIndexOr parts 2 "undefined"
  year ++ "-" ++ month ++ "-" ++ day

/-! ## Response envelope and effect traces -/

/-- The JSON envelope `{success, data?, error?}` together with the HTTP
status it is sent with. -/
structure ApiResponse (α : Type) where
  status : Nat
  success : Bool
  error : Option String
  data : Option α
deriving DecidableEq

/-- Externally visible collaborator calls a handler performs, in order.
`getPool` is a successful pool acquisition; `executeProc` a stored-procedure
call attempt; `runQuery` a SQL text query attempt; `bcryptHash` a password
hash computation. -/
inductive DbEffect : Type where
  | getPool : DbEffect
  | executeProc (procName : String) (args : List String) : DbEffect
  | runQuery (queryName : String) (args : List String) : DbEffect
  | bcryptHash : DbEffect
deriving DecidableEq

/-- Result rows from the decision service: schema-less key/value rows. -/
abbrev Row := List (String × String)

/-- The resolved server-side session, as returned by `getServerSession`. -/
structure SessionInfo where
  userId : String
deriving DecidableEq

/-- Outcome of the database round trip in the dnc handlers: pool acquisition
may fail, the stored-procedure execution may fail, or rows come back. -/
inductive DbOutcome (α : Type) : Type where
  | ok (value : α) : DbOutcome α
  | poolError : DbOutcome α
  | execError : DbOutcome α
deriving DecidableEq

/-! ## dnc-history and dnc-lookup POST handlers -/

/-- Parsed JSON body of POST /api/dnc-history. -/
structure HistoryBody where
  phoneNumber : Option String
deriving DecidableEq

/-- Parsed JSON body of POST /api/dnc-lookup. -/
structure LookupBody where
  phoneNumber : Option String
  lookupDate : Option String
deriving DecidableEq

/-- POST /api/dnc-history.  `session` is the `getServerSession` result,
`body` the JSON parse outcome, `db` the database round-trip outcome.
Returns the response and the ordered trace of database work performed. -/
def dncHistoryPOST (session : Option SessionInfo) (body : Except Unit HistoryBody)
    (db : DbOutcome (List Row)) : ApiResponse (List Row) × List DbEffect :=
  match session with
  | none => (⟨401, false, some "Unauthorized", none⟩, [])
  | some _ =>
    match body with
    | .error _ => (⟨400, false, some "Invalid request body", none⟩, [])
    | .ok b =>
      let rawPhone := stripNonDigits (b.phoneNumber.getD "")
      if rawPhone.length ≠ 10 then
        (⟨400, false, some "A valid 10-digit US phone number is required", none⟩, [])
      else
        match db with
        | .poolError =>
          (⟨500, false, some "History lookup failed. Please try again.", none⟩, [])
        | .execError =>
          (⟨500, false, some "History lookup failed. Please try again.", none⟩,
           [.getPool, .executeProc "dbo.sp_dnc_history" [rawPhone]])
        | .ok rows =>
          (⟨200, true, none, some rows⟩,
           [.getPool, .executeProc "dbo.sp_dnc_history" [rawPhone]])

/-- POST /api/dnc-lookup.  `dateOk` models the JavaScript runtime test
`!isNaN(new Date(isoString).getTime())` on the rebuilt date string. -/
def dncLookupPOST (dateOk : String → Bool) (session : Option SessionInfo)
    (body : Except Unit LookupBody) (db : DbOutcome (List Row)) :
    ApiResponse (List Row) × List DbEffect :=
  match session with
  | none => (⟨401, false, some "Unauthorized", none⟩, [])
  | some _ =>
    match body with
    | .error _ => (⟨400, false, some "Invalid request body", none⟩, [])
    | .ok b =>
      let rawPhone := stripNonDigits (b.phoneNumber.getD "")
      if rawPhone.length ≠ 10 then
        (⟨400, false, some "A valid 10-digit US phone number is required", none⟩, [])
      else if jsFalsyOpt b.lookupDate then
        (⟨400, false, some "Lookup date is required", none⟩, [])
      else
        let iso := lookupIsoString (b.lookupDate.getD "")
        if dateOk iso = false then
          (⟨400, false, some "Lookup date must be in MM/DD/YYYY format", none⟩, [])
        else
          match db with
          | .poolError =>
            (⟨500, false, some "Lookup failed. Please try again.", none⟩, [])
          | .execError =>
            (⟨500, false, some "Lookup failed. Please try again.", none⟩,
             [.getPool, .executeProc "dbo.sp_dnc_lookup" [rawPhone, iso]])
          | .ok rows =>
            (⟨200, true, none, some rows⟩,
             [.getPool, .executeProc "dbo.sp_dnc_lookup" [rawPhone, iso]])

/-! ## Database configuration (lib/db.ts) -/

/-- The environment variables the database layer reads. -/
structure Env where
  dbServer : Option String
  dbPort : Option String
  dbDatabase : Option String
  dbUser : Option String
  dbPassword : Option String
deriving DecidableEq

/-- Decimal value of a digit list. -/
def digitsToNat (l : List Char) : Nat :=
  l.foldl (fun n c => n * 10 + (c.toNat - 48)) 0

/-- `parseInt(s, 10)`: leading decimal digits, `none` for NaN. -/
def jsParseInt (s : String) : Option Nat :=
  match s.data.takeWhile Char.isDigit with
  | [] => none
  | ds => some (digitsToNat ds)

/-- The mssql configuration object assembled by `buildConfig`. -/
structure DbConfig where
  server : String
  port : Option Nat
  database : String
  user : String
  password : String
  poolMax : Nat
  poolMin : Nat
  idleTimeoutMillis : Nat
  connectionTimeout : Nat
  requestTimeout : Nat
deriving DecidableEq

/-- `buildConfig()` from lib/db.ts: throws when any of DB_SERVER,
DB_DATABASE, DB_USER, DB_PASSWORD is unset (or empty, which is falsy). -/
def buildConfig (env : Env) : Except String DbConfig :=
  if jsFalsyOpt env.dbServer || jsFalsyOpt env.dbDatabase
      || jsFalsyOpt env.dbUser || jsFalsyOpt env.dbPassword then
    .error ("Missing required database environment variables. " ++
      "Ensure DB_SERVER, DB_DATABASE, DB_USER, and DB_PASSWORD are set in .env.local")
  else
    .ok
      { server := env.dbServer.getD ""
        port := jsParseInt (if jsFalsyOpt env.dbPort then "1433" else env.dbPort.getD "")
        database := env.dbDatabase.getD ""
        user := env.dbUser.getD ""
        password := env.dbPassword.getD ""
        poolMax := 10
        poolMin := 0
        idleTimeoutMillis := 30000
        connectionTimeout := 15000
        requestTimeout := 30000 }

/-- Parsed JSON body of POST /api/register. -/
structure RegBody where
  username : Option String
  email : Option String
  password : Option String
deriving DecidableEq

/-- The driver error object shape the register handler inspects:
`(err as { number?: number }).number`. -/
structure SqlErr where
  number : Option Int
deriving DecidableEq

/-- The server-side validation gauntlet of POST /api/register, in source
order; `some r` is the early 400 response, `none` means validation passed. -/
def regValidation (b : RegBody) : Option (ApiResponse Unit) :=
  if jsFalsyOpt b.username || jsFalsyOpt b.email || jsFalsyOpt b.password then
    some ⟨400, false, some "Username, email, and password are required", none⟩
  else
    let trimmedUsername := jsTrim (b.username.getD "")
    let trimmedEmail := jsToLower (jsTrim (b.email.getD ""))
    if trimmedUsername.length < 3 then
      some ⟨400, false, some "Username must be at least 3 characters", none⟩
    else if trimmedUsername.length > 100 then
      some ⟨400, false, some "Username is too long", none⟩
    else if !(jsIncludes trimmedEmail '@' && jsIncludes trimmedEmail '.') then
      some ⟨400, false, some "Please enter a valid email address", none⟩
    else if (b.password.getD "").length < 8 then
      some ⟨400, false, some "Password must be at least 8 characters", none⟩
    else
      none

/-- POST /api/register.  `hash12` models `bcrypt.hash(password, 12)`;
`insertOutcome` is the INSERT's result once a pool is available.  A thrown
pool/config error carries no `number` field, hence `SqlErr.mk none`. -/
def registerPOST (env : Env) (hash12 : String → String) (body : Except Unit RegBody)
    (insertOutcome : Except SqlErr Unit) : ApiResponse Unit × List DbEffect :=
  match body with
  | .error _ => (⟨400, false, some "Invalid request body", none⟩, [])
  | .ok b =>
    match regValidation b with
    | some r => (r, [])
    | none =>
      let trimmedUsername := jsTrim (b.username.getD "")
      let trimmedEmail := jsToLower (jsTrim (b.email.getD ""))
      let passwordHash := hash12 (b.password.getD "")
      let dbResult : Except SqlErr Unit :=
        match buildConfig env with
        | .error _ => .error ⟨none⟩
        | .ok _ => insertOutcome
      match dbResult with
      | .ok _ =>
        (⟨201, true, none, none⟩,
         [.bcryptHash, .getPool,
          .runQuery "INSERT INTO users" [trimmedUsername, trimmedEmail, passwordHash]])
      | .error e =>
        if e.number == some 2627 || e.number == some 2601 then
          (⟨409, false, some "Username or email already exists", none⟩,
           [.bcryptHash, .getPool,
            .runQuery "INSERT INTO users" [trimmedUsername, trimmedEmail, passwordHash]])
        else
          (⟨500, false, some "Registration failed. Please try again.", none⟩,
           [.bcryptHash])

/-! ## POST /api/forgot-password -/

/-- Parsed JSON body of POST /api/forgot-password. -/
structure ForgotBody where
  email : Option String
deriving DecidableEq

/-- Outcome of the guarded account lookup inside forgot-password. -/
inductive ForgotLookup : Type where
  | found (id : Nat) (username : String) (email : String) : ForgotLookup
  | notFound : ForgotLookup
  | dbError : ForgotLookup
deriving DecidableEq

/-- Full result of the forgot-password handler, with the log line emitted
by the lookup branch (the differences stay server-side only). -/
structure ForgotResult where
  response : ApiResponse String
  dbEffects : List DbEffect
  logLine : String
deriving DecidableEq

/-- POST /api/forgot-password: validates the email, performs the account
lookup inside its own try/catch, and always answers with the same generic
confirmation message regardless of the lookup's outcome. -/
def forgotPasswordPOST (body : Except Unit ForgotBody) (look : ForgotLookup) :
    ForgotResult :=
  match body with
  | .error _ =>
    ⟨⟨400, false, some "Invalid request body", none⟩, [], ""⟩
  | .ok b =>
    match b.email with
    | none => ⟨⟨400, false, some "Email address is required", none⟩, [], ""⟩
    | some s =>
      let email := jsToLower (jsTrim s)
      if jsFalsyStr email then
        ⟨⟨400, false, some "Email address is required", none⟩, [], ""⟩
      else if !(jsIncludes email '@' && jsIncludes email '.') then
        ⟨⟨400, false, some "Please enter a valid email address", none⟩, [], ""⟩
      else
        let logLine :=
          match look with
          | .found _ username _ => "Password reset requested for account: " ++ username
          | .notFound => "Password reset requested for unknown email (suppressed)"
          | .dbError => "POST /api/forgot-password — DB error during user lookup"
        ⟨⟨200, true, none,
           some "If an account with that email exists, you will receive a password reset link shortly."⟩,
         [.getPool, .runQuery "SELECT users by email" [email]], logLine⟩

/-! ## NextAuth credentials `authorize` callback (lib/auth.ts) -/

/-- The credentials object handed to `authorize`. -/
structure Creds where
  username : String
  password : String
deriving DecidableEq

/-- A row of [dbo].[users] as selected by the authorize query. -/
structure StoredUser where
  id : Nat
  username : String
  email : String
  passwordHash : String
  isActive : Bool
deriving DecidableEq

/-- The minimal object returned to NextAuth on success. -/
structure Identity where
  id : String
  name : String
  email : String
deriving DecidableEq

/-- Result of one `authorize` call: the value returned to NextAuth and the
single server-side log line the branch emits. -/
structure AuthResult where
  result : Option Identity
  logLine : String
deriving DecidableEq

/-- The `authorize` callback.  `findByUsername` models the SELECT on the
trimmed username (`.error` is a thrown database error, caught and logged);
`bcryptCompare` models `bcrypt.compare(password, password_hash)`. -/
def authorize (findByUsername : String → Except Unit (Option StoredUser))
    (bcryptCompare : String → String → Bool) (credentials : Option Creds) :
    AuthResult :=
  match credentials with
  | none => ⟨none, "Login attempt with missing credentials"⟩
  | some c =>
    if jsFalsyStr c.username || jsFalsyStr c.password then
      ⟨none, "Login attempt with missing credentials"⟩
    else
      match findByUsername (jsTrim c.username) with
      | .error _ => ⟨none, "Database error during authentication"⟩
      | .ok none => ⟨none, "Login failed: user not found — " ++ c.username⟩
      | .ok (some user) =>
        if !user.isActive then
          ⟨none, "Login failed: account inactive — " ++ c.username⟩
        else if !bcryptCompare c.password user.passwordHash then
          ⟨none, "Login failed: wrong password — " ++ c.username⟩
        else
          ⟨some ⟨toString user.id, user.username, user.email⟩,
           "Login success — " ++ user.username⟩

/-- The caller-observable error text: the login page shows this one string
whenever `signIn` reports any error (authorize returned null). -/
def clientLoginError (r : Option Identity) : Option String :=
  match r with
  | none => some "Invalid username or password. Please try again."
  | some _ => none

/-- The HTTP status of the credentials callback response as seen by the
`signIn` call: a null `authorize` result yields the one generic 401, a
user object yields 200. -/
def signInStatus (r : Option Identity) : Nat :=
  match r with
  | none => 401
  | some _ => 200

/-! ## Session tokens and the Route Guard

Modelled from the spec: the JWT session sign/verify pair lives inside the
NextAuth library and is not part of this repository's sources — src only
configures it (`session.strategy = "jwt"`, `maxAge = 8*60*60` in
lib/auth.ts) and consumes it (`withAuth` middleware, `getServerSession`
guards).  Following spec §4.3, a token embeds the user id and its issuance
time and carries a message-authentication tag over that payload; `verify`
checks the tag first (tamper detection), then the expiry, and the Route
Guard collapses both failures to one unauthenticated outcome.  The tag is
an idealized MAC, injective in the payload. -/

/-- Session lifetime in seconds: `maxAge: 8 * 60 * 60` from lib/auth.ts. -/
def sessionMaxAge : Nat := 8 * 60 * 60

/-- Modelled from the spec: idealized message-authentication tag over the
token payload, injective in the payload (for same-length payloads). -/
def macTag (key : Nat) (payload : List Nat) : Nat :=
  Nat.pair key (payload.foldr Nat.pair 0)

/-- Modelled from the spec: `issue(userId)` — the token is the payload
components `[userId, issuedAt]` followed by the tag over them. -/
def issueToken (key userId issuedAt : Nat) : List Nat :=
  [userId, issuedAt, macTag key [userId, issuedAt]]

/-- Internal verification outcome (spec §4.3 distinguishes these only for
diagnostics). -/
inductive VerifyResult : Type where
  | ok (userId : Nat) : VerifyResult
  | invalid : VerifyResult
  | expired : VerifyResult
deriving DecidableEq

/-- Modelled from the spec: `verify(token)` — signature check first, then
expiry (`now < issuedAt + maxAge`); malformed shape is invalid. -/
def verifyToken (key now : Nat) (token : List Nat) : VerifyResult :=
  match token with
  | [userId, issuedAt, tag] =>
    if tag = macTag key [userId, issuedAt] then
      if now < issuedAt + sessionMaxAge then .ok userId else .expired
    else .invalid
  | _ => .invalid

/-- The Route Guard's externally visible outcome. -/
inductive GuardOutcome : Type where
  | proceed (userId : Nat) : GuardOutcome
  | unauthenticated : GuardOutcome
deriving DecidableEq

/-- Modelled from the spec: the Route Guard verifies the presented token
and collapses invalid and expired to the same unauthenticated outcome. -/
def routeGuard (key now : Nat) (token : List Nat) : GuardOutcome :=
  match verifyToken key now token with
  | .ok u => .proceed u
  | .invalid => .unauthenticated
  | .expired => .unauthenticated

/-- Whether the Route Guard accepts the token. -/
def guardAccepts (key now : Nat) (token : List Nat) : Bool :=
  match routeGuard key now token with
  | .proceed _ => true
  | .unauthenticated => false

/-! ## Winston logger: `maskPhoneNumbers` and the transports (lib/logger.ts)

The format function applies three global regex replacements in order:
  1. `/\(\d{3}\)\s*\d{3}-(\d{4})/g`          → `"***-***-$1"`
  2. `/\d{3}[-.\s]\d{3}[-.\s](\d{4})/g`      → `"***-***-$1"`
  3. `/\b\d{6}(\d{4})\b/g`                   → `"***-***-$1"`
Each is a fixed-length pattern, so the JS engine's leftmost-first, resume
after-the-match scan is embedded directly as a list scanner. -/

/-- The regex class `[-.\s]` of the dashes/dots/spaces pattern. -/
def isSepChar (c : Char) : Bool :=
  c = '-' || c = '.' || jsSpace c

/-- The regex word class `\w` used by the `\b` boundary. -/
def isWordChar (c : Char) : Bool :=
  c.isAlphanum || c = '_'

/-- Consume exactly `n` decimal digits: `some (digits, rest)` or `none`. -/
def takeDigits : Nat → List Char → Option (List Char × List Char)
  | 0, l => some ([], l)
  | _ + 1, [] => none
  | n + 1, c :: l =>
    if c.isDigit then
      match takeDigits n l with
      | some (ds, r) => some (c :: ds, r)
      | none => none
    else none

/-- Greedy `\s*` (next token is a digit, so greediness never backtracks). -/
def dropJsSpaces : List Char → List Char
  | c :: l => if jsSpace c then dropJsSpaces l else c :: l
  | [] => []

/-- Match `\(\d{3}\)\s*\d{3}-(\d{4})` at the head of the list, returning
the captured last four digits and the rest of the input. -/
def matchParen : List Char → Option (List Char × List Char)
  | '(' :: l1 =>
    match takeDigits 3 l1 with
    | some (_, ')' :: l3) =>
      let l4 := dropJsSpaces l3
      match takeDigits 3 l4 with
      | some (_, '-' :: l6) =>
        match takeDigits 4 l6 with
        | some (d4, l7) => some (d4, l7)
        | none => none
      | _ => none
    | _ => none
  | _ => none

/-- Match `\d{3}[-.\s]\d{3}[-.\s](\d{4})` at the head of the list. -/
def matchSep (l : List Char) : Option (List Char × List Char) :=
  match takeDigits 3 l with
  | some (_, s1 :: l2) =>
    if isSepChar s1 then
      match takeDigits 3 l2 with
      | some (_, s2 :: l4) =>
        if isSepChar s2 then
          match takeDigits 4 l4 with
          | some (d4, l6) => some (d4, l6)
          | none => none
        else none
      | _ => none
    else none
  | _ => none

/-- `\b` before a digit holds iff the previous character (none at the
start of the string) is not a word character. -/
def boundaryBefore (prev : Option Char) : Bool :=
  match prev with
  | none => true
  | some c => !isWordChar c

/-- `\b` after a digit holds iff the next character (none at the end of
the string) is not a word character. -/
def boundaryAfter (rest : List Char) : Bool :=
  match rest with
  | [] => true
  | c :: _ => !isWordChar c

/-- Match `\b\d{6}(\d{4})\b` at the head of the list, given the character
just before the current position. -/
def matchBare (prev : Option Char) (l : List Char) : Option (List Char × List Char) :=
  if boundaryBefore prev then
    match takeDigits 6 l with
    | some (_, l6) =>
      match takeDigits 4 l6 with
      | some (d4, rest) => if boundaryAfter rest then some (d4, rest) else none
      | none => none
    | none => none
  else none

/-- One global-replace pass: scan left to right, replace each match with
`"***-***-"` plus the captured four digits, resume after the match.
`fuel` starts at the input length; every step consumes at least one input
character, so the fuel never runs out on the patterns used here. -/
def maskReplaceGo (m : Option Char → List Char → Option (List Char × List Char)) :
    Nat → Option Char → List Char → List Char
  | 0, _, l => l
  | _ + 1, _, [] => []
  | fuel + 1, prev, c :: rest =>
    match m prev (c :: rest) with
    | some (d4, after) =>
      "***-***-".data ++ d4 ++ maskReplaceGo m fuel d4.getLast? after
    | none => c :: maskReplaceGo m fuel (some c) rest

/-- A full `.replace(pattern, "***-***-$1")` pass with the `g` flag. -/
def maskReplace (m : Option Char → List Char → Option (List Char × List Char))
    (l : List Char) : List Char :=
  maskReplaceGo m l.length none l

/-- The `mask` closure of `maskPhoneNumbers`: the three replacements, in
source order, each pass running over the previous pass's output. -/
def maskLogText (s : String) : String :=
  let p1 := maskReplace (fun _ l => matchParen l) s.data
  let p2 := maskReplace (fun _ l => matchSep l) p1
  let p3 := maskReplace matchBare p2
  ⟨p3⟩

/-- A structured log record: the primary message and the string-valued
metadata fields. -/
structure LogRecord where
  message : String
  meta : List (String × String)
deriving DecidableEq

/-- The `maskPhoneNumbers` winston format: masks `info.message` and every
other string-valued field of the record. -/
def maskPhoneNumbers (r : LogRecord) : LogRecord :=
  ⟨maskLogText r.message, r.meta.map (fun p => (p.1, maskLogText p.2))⟩

/-- A log sink as wired in lib/logger.ts: its name and whether its format
chain contains `maskPhoneNumbers()`. -/
structure Transport where
  name : String
  hasMaskFormat : Bool
deriving DecidableEq

/-- The logger's `transports`: console and daily-rotate file, both with
`maskPhoneNumbers()` in their format chain. -/
def loggerTransports : List Transport :=
  [⟨"console", true⟩, ⟨"app-file", true⟩]

/-- The logger's `exceptionHandlers`: a bare Console and a bare
DailyRotateFile (exceptions-%DATE%.log), neither given a mask format. -/
def exceptionTransports : List Transport :=
  [⟨"exceptions-console", false⟩, ⟨"exceptions-file", false⟩]

/-- The logger's `rejectionHandlers`: a bare Console and a bare
DailyRotateFile (rejections-%DATE%.log), neither given a mask format. -/
def rejectionTransports : List Transport :=
  [⟨"rejections-console", false⟩, ⟨"rejections-file", false⟩]

/-- What a sink writes for a record: the record after the sink's format
chain, which applies the mask exactly when the sink was given it. -/
def transportOutput (t : Transport) (r : LogRecord) : LogRecord :=
  if t.hasMaskFormat then maskPhoneNumbers r else r

/-! ## The lazy pool layer seen by each operation

`getPool` calls `buildConfig` on first acquisition; a throw propagates to
the caller's own try/catch.  These three definitions express what each
operation's database step produces when the configuration is invalid. -/

/-- C2: a lookup or history request without a valid session gets the 401
Unauthorized envelope and the handler performs no database work at all:
no pool acquisition and no stored-procedure call appear in its trace. -/
theorem dnc_unauthenticated_no_db_work :
    ∀ (dateOk : String → Bool) (body1 : Except Unit HistoryBody)
      (body2 : Except Unit LookupBody) (db1 db2 : DbOutcome (List Row)),
      dncHistoryPOST none body1 db1 = (⟨401, false, some "Unauthorized", none⟩, []) ∧
      dncLookupPOST dateOk none body2 db2 = (⟨401, false, some "Unauthorized", none⟩, []) := by
  intro dateOk body1 body2 db1 db2
  exact ⟨rfl, rfl⟩

/-- C4 counterexample: an unauthenticated lookup/history request whose
phone number is not 10 digits is answered 401, not the claimed 400 — the
auth guard runs before validation. -/
theorem dnc_validation_401_counterexample :
    (dncHistoryPOST none (.ok ⟨some "555123"⟩) (.ok [])).1.status = 401 ∧
    (401 : Nat) ≠ 400 := by
  exact ⟨rfl, by decide⟩

/-- C4 (amended): for every authenticated lookup or history request, a
phone number that does not strip to exactly 10 digits — and, for lookup,
a missing lookupDate or one whose rebuilt date string fails the runtime
date parse — yields the typed 400 bad-input envelope and an empty
database trace: the stored procedure is never called.  (Unauthenticated
requests are answered 401 by the guard first; the procedure is likewise
never called, as `dnc_unauthenticated_no_db_work` shows.) -/
theorem dnc_validation_before_dispatch :
    ∀ (dateOk : String → Bool) (s : SessionInfo) (db : DbOutcome (List Row))
      (hb : HistoryBody) (lb : LookupBody),
      ((stripNonDigits (hb.phoneNumber.getD "")).length ≠ 10 →
        dncHistoryPOST (some s) (.ok hb) db =
          (⟨400, false, some "A valid 10-digit US phone number is required", none⟩, [])) ∧
      ((stripNonDigits (lb.phoneNumber.getD "")).length ≠ 10 →
        dncLookupPOST dateOk (some s) (.ok lb) db =
          (⟨400, false, some "A valid 10-digit US phone number is required", none⟩, [])) ∧
      ((stripNonDigits (lb.phoneNumber.getD "")).length = 10 →
        jsFalsyOpt lb.lookupDate = true →
        dncLookupPOST dateOk (some s) (.ok lb) db =
          (⟨400, false, some "Lookup date is required", none⟩, [])) ∧
      ((stripNonDigits (lb.phoneNumber.getD "")).length = 10 →
        jsFalsyOpt lb.lookupDate = false →
        dateOk (lookupIsoString (lb.lookupDate.getD "")) = false →
        dncLookupPOST dateOk (some s) (.ok lb) db =
          (⟨400, false, some "Lookup date must be in MM/DD/YYYY format", none⟩, [])) := by
  intro dateOk s db hb lb
  refine ⟨fun h1 => ?_, fun h2 => ?_, fun h3 h4 => ?_, fun h5 h6 h7 => ?_⟩
  · simp [dncHistoryPOST, h1]
  · simp [dncLookupPOST, h2]
  · simp [dncLookupPOST, h3, h4]
  · simp [dncLookupPOST, h5, h6, h7]

/-- Witness for `dnc_validation_before_dispatch` at concrete inputs. -/
theorem dnc_validation_before_dispatch_witness :
    dncHistoryPOST (some ⟨"1"⟩) (.ok ⟨some "555123"⟩) (.ok []) =
      (⟨400, false, some "A valid 10-digit US phone number is required", none⟩, []) ∧
    dncLookupPOST (fun _ => false) (some ⟨"1"⟩) (.ok ⟨some "5551234567", some "02/30/2024"⟩) (.ok []) =
      (⟨400, false, some "Lookup date must be in MM/DD/YYYY format", none⟩, []) := by
  refine ⟨?_, ?_⟩
  · exact (dnc_validation_before_dispatch (fun _ => false) ⟨"1"⟩ (.ok []) ⟨some "555123"⟩
      ⟨some "5551234567", some "02/30/2024"⟩).1 (by decide)
  · exact (dnc_validation_before_dispatch (fun _ => false) ⟨"1"⟩ (.ok []) ⟨some "555123"⟩
      ⟨some "5551234567", some "02/30/2024"⟩).2.2.2 (by decide) (by decide) rfl

/-- C6: the value the history handler sends downstream is exactly the
digit-stripped input — digit-stripping is the only transformation — so any
two formattings with the same 10 digits dispatch the same query value; in
particular the three example formattings all strip to "2125551234". -/
theorem dnc_history_normalizes_digits :
    (∀ (s : SessionInfo) (phone : String) (rows : List Row),
      (stripNonDigits phone).length = 10 →
      (dncHistoryPOST (some s) (.ok ⟨some phone⟩) (.ok rows)).2 =
        [.getPool, .executeProc "dbo.sp_dnc_history" [stripNonDigits phone]]) ∧
    stripNonDigits "2125551234" = "2125551234" ∧
    stripNonDigits "(212) 555-1234" = "2125551234" ∧
    stripNonDigits "212-555-1234" = "2125551234" := by
  refine ⟨?_, by decide, by decide, by decide⟩
  intro s phone rows h
  simp [dncHistoryPOST, h]

/-- Witness for `dnc_history_normalizes_digits` at a formatted input. -/
theorem dnc_history_normalizes_digits_witness :
    (dncHistoryPOST (some ⟨"1"⟩) (.ok ⟨some "(212) 555-1234"⟩) (.ok [])).2 =
      [.getPool, .executeProc "dbo.sp_dnc_history" [stripNonDigits "(212) 555-1234"]] :=
  dnc_history_normalizes_digits.1 ⟨"1"⟩ "(212) 555-1234" [] (by decide)

/-- C10 counterexample: an unauthenticated request with an unparseable
body gets 401 from the lookup/history handlers, not the claimed 400. -/
theorem invalid_body_401_counterexample :
    (dncHistoryPOST none (.error ()) (.ok [])).1.status = 401 ∧
    (401 : Nat) ≠ 400 := by
  exact ⟨rfl, by decide⟩

/-- C10 (amended): a request body that does not parse as JSON yields the
400 `{success: false, error: "Invalid request body"}` envelope with an
empty work trace (no validation, hashing, or database work) and never a
500 — unconditionally for register and forgot-password, and for every
authenticated request on lookup and history (without a session those
handlers answer 401 before reading the body). -/
theorem invalid_body_rejected_early :
    ∀ (env : Env) (hash12 : String → String) (ins : Except SqlErr Unit)
      (look : ForgotLookup) (dateOk : String → Bool) (s : SessionInfo)
      (db1 db2 : DbOutcome (List Row)),
      registerPOST env hash12 (.error ()) ins =
        (⟨400, false, some "Invalid request body", none⟩, []) ∧
      (forgotPasswordPOST (.error ()) look).response =
        ⟨400, false, some "Invalid request body", none⟩ ∧
      (forgotPasswordPOST (.error ()) look).dbEffects = [] ∧
      dncHistoryPOST (some s) (.error ()) db1 =
        (⟨400, false, some "Invalid request body", none⟩, []) ∧
      dncLookupPOST dateOk (some s) (.error ()) db2 =
        (⟨400, false, some "Invalid request body", none⟩, []) := by
  intro env hash12 ins look dateOk s db1 db2
  exact ⟨rfl, rfl, rfl, rfl, rfl⟩

/-- C7: when a validated registration's INSERT fails with either of the
two SQL Server uniqueness-violation codes (2627 or 2601), the response is
the single generic 409 conflict envelope "Username or email already
exists" — the same constant for both codes, never a 500, revealing
nothing about which field collided. -/
theorem register_conflict_generic :
    ∀ (env : Env) (cfg : DbConfig) (hash12 : String → String) (b : RegBody) (e : SqlErr),
      regValidation b = none →
      buildConfig env = .ok cfg →
      (e.number = some 2627 ∨ e.number = some 2601) →
      (registerPOST env hash12 (.ok b) (.error e)).1 =
        ⟨409, false, some "Username or email already exists", none⟩ ∧
      (registerPOST env hash12 (.ok b) (.error e)).1.status ≠ 500 := by
  intro env cfg hash12 b e hval hcfg hnum
  have hresp : (registerPOST env hash12 (.ok b) (.error e)).1 =
      ⟨409, false, some "Username or email already exists", none⟩ := by
    rcases hnum with h | h <;> simp [registerPOST, hval, hcfg, h]
  refine ⟨hresp, ?_⟩
  rw [hresp]
  decide

/-- Witness for `register_conflict_generic` at a concrete duplicate. -/
theorem register_conflict_generic_witness :
    (registerPOST ⟨some "sql1", none, some "dnc", some "sa", some "pw"⟩ (fun s => s)
        (.ok ⟨some "alice", some "a@x.com", some "password123"⟩) (.error ⟨some 2627⟩)).1 =
      ⟨409, false, some "Username or email already exists", none⟩ :=
  (register_conflict_generic ⟨some "sql1", none, some "dnc", some "sa", some "pw"⟩
    ⟨"sql1", some 1433, "dnc", "sa", "pw", 10, 0, 30000, 15000, 30000⟩ (fun s => s)
    ⟨some "alice", some "a@x.com", some "password123"⟩ ⟨some 2627⟩
    (by decide) rfl (Or.inl rfl)).1

/-- C8: for a syntactically valid email, the forgot-password response is
the same generic 200 confirmation whatever the account lookup produced —
a found account, no account, or a database error — so the response
carries no information about account existence. -/
theorem forgot_password_uniform_response :
    ∀ (s : String) (look1 look2 : ForgotLookup),
      jsFalsyStr (jsToLower (jsTrim s)) = false →
      jsIncludes (jsToLower (jsTrim s)) '@' = true →
      jsIncludes (jsToLower (jsTrim s)) '.' = true →
      (forgotPasswordPOST (.ok ⟨some s⟩) look1).response =
        (forgotPasswordPOST (.ok ⟨some s⟩) look2).response ∧
      (forgotPasswordPOST (.ok ⟨some s⟩) look1).response =
        ⟨200, true, none,
         some "If an account with that email exists, you will receive a password reset link shortly."⟩ := by
  intro s look1 look2 h1 h2 h3
  constructor <;> simp [forgotPasswordPOST, h1, h2, h3]

/-- Witness for `forgot_password_uniform_response`: the same response for
an existing and an unknown account at a concrete email. -/
theorem forgot_password_uniform_response_witness :
    (forgotPasswordPOST (.ok ⟨some "Alice@X.com"⟩) (.found 1 "alice" "alice@x.com")).response =
      (forgotPasswordPOST (.ok ⟨some "Alice@X.com"⟩) .notFound).response :=
  (forgot_password_uniform_response "Alice@X.com" (.found 1 "alice" "alice@x.com") .notFound
    (by decide) (by decide) (by decide)).1

/-- C3: a login with a correct username but wrong password, one with a
nonexistent username, and one against an inactive account all return null
from `authorize`, so the caller sees the identical generic message
"Invalid username or password. Please try again." and the identical HTTP
status in all three cases; the distinct reasons appear only in the
server-side log lines, which differ per branch. -/
theorem login_failures_indistinguishable :
    ∀ (db1 db2 db3 : String → Except Unit (Option StoredUser))
      (cmp1 cmp2 cmp3 : String → String → Bool)
      (c1 c2 c3 : Creds) (u1 u3 : StoredUser),
      c1.username ≠ "" → c1.password ≠ "" →
      db1 (jsTrim c1.username) = .ok (some u1) → u1.isActive = true →
      cmp1 c1.password u1.passwordHash = false →
      c2.username ≠ "" → c2.password ≠ "" →
      db2 (jsTrim c2.username) = .ok none →
      c3.username ≠ "" → c3.password ≠ "" →
      db3 (jsTrim c3.username) = .ok (some u3) → u3.isActive = false →
      (authorize db1 cmp1 (some c1)).result = none ∧
      (authorize db2 cmp2 (some c2)).result = none ∧
      (authorize db3 cmp3 (some c3)).result = none ∧
      clientLoginError (authorize db1 cmp1 (some c1)).result =
        some "Invalid username or password. Please try again." ∧
      clientLoginError (authorize db1 cmp1 (some c1)).result =
        clientLoginError (authorize db2 cmp2 (some c2)).result ∧
      clientLoginError (authorize db2 cmp2 (some c2)).result =
        clientLoginError (authorize db3 cmp3 (some c3)).result ∧
      signInStatus (authorize db1 cmp1 (some c1)).result =
        signInStatus (authorize db2 cmp2 (some c2)).result ∧
      signInStatus (authorize db2 cmp2 (some c2)).result =
        signInStatus (authorize db3 cmp3 (some c3)).result ∧
      (authorize db1 cmp1 (some c1)).logLine =
        "Login failed: wrong password — " ++ c1.username ∧
      (authorize db2 cmp2 (some c2)).logLine =
        "Login failed: user not found — " ++ c2.username ∧
      (authorize db3 cmp3 (some c3)).logLine =
        "Login failed: account inactive — " ++ c3.username := by
  intro db1 db2 db3 cmp1 cmp2 cmp3 c1 c2 c3 u1 u3
  intro h1u h1p h1db h1act h1cmp h2u h2p h2db h3u h3p h3db h3act
  have e1 : authorize db1 cmp1 (some c1) =
      ⟨none, "Login failed: wrong password — " ++ c1.username⟩ := by
    simp [authorize, jsFalsyStr, h1u, h1p, h1db, h1act, h1cmp]
  have e2 : authorize db2 cmp2 (some c2) =
      ⟨none, "Login failed: user not found — " ++ c2.username⟩ := by
    simp [authorize, jsFalsyStr, h2u, h2p, h2db]
  have e3 : authorize db3 cmp3 (some c3) =
      ⟨none, "Login failed: account inactive — " ++ c3.username⟩ := by
    simp [authorize, jsFalsyStr, h3u, h3p, h3db, h3act]
  rw [e1, e2, e3]
  exact ⟨rfl, rfl, rfl, rfl, rfl, rfl, rfl, rfl, rfl, rfl, rfl⟩

/-- Witness for `login_failures_indistinguishable` on a concrete store
with an active user "alice", an inactive user "carol", and no "bob". -/
theorem login_failures_indistinguishable_witness :
    (authorize
        (fun s => if s = "alice" then .ok (some ⟨1, "alice", "a@x.com", "hh", true⟩) else .ok none)
        (fun _ _ => false) (some ⟨"alice", "wrongpass"⟩)).result = none :=
  (login_failures_indistinguishable
    (fun s => if s = "alice" then .ok (some ⟨1, "alice", "a@x.com", "hh", true⟩) else .ok none)
    (fun _ => .ok none)
    (fun s => if s = "carol" then .ok (some ⟨2, "carol", "c@x.com", "hh", false⟩) else .ok none)
    (fun _ _ => false) (fun _ _ => false) (fun _ _ => false)
    ⟨"alice", "wrongpass"⟩ ⟨"bob", "pw12345"⟩ ⟨"carol", "pw12345"⟩
    ⟨1, "alice", "a@x.com", "hh", true⟩ ⟨2, "carol", "c@x.com", "hh", false⟩
    (by decide) (by decide) rfl rfl rfl
    (by decide) (by decide) rfl
    (by decide) (by decide) rfl rfl).1

/-- The idealized MAC is injective in a two-component payload. -/
theorem macTag_inj2 {key a b c d : Nat} (h : macTag key [a, b] = macTag key [c, d]) :
    a = c ∧ b = d := by
  unfold macTag at h
  simp only [List.foldr_cons, List.foldr_nil] at h
  have h1 := (Nat.pair_eq_pair.mp h).2
  have h2 := Nat.pair_eq_pair.mp h1
  exact ⟨h2.1, (Nat.pair_eq_pair.mp h2.2).1⟩

/-- C1: the Route Guard accepts a token iff its tag verifies against its
payload and the current time is before issuance + 8 hours; an untampered
issued token is accepted exactly while unexpired; changing any one
component of an issued token makes verification fail; and both invalid
and expired tokens collapse to the same external unauthenticated outcome. -/
theorem session_token_acceptance :
    (∀ key uid t0 now, guardAccepts key now (issueToken key uid t0) = true ↔
       now < t0 + sessionMaxAge) ∧
    (∀ key now token, guardAccepts key now token = true ↔
       ∃ uid t0, token = [uid, t0, macTag key [uid, t0]] ∧ now < t0 + sessionMaxAge) ∧
    (∀ key uid t0 now i v, i < 3 → v ≠ (issueToken key uid t0).getD i 0 →
       guardAccepts key now ((issueToken key uid t0).set i v) = false) ∧
    (∀ key now token,
       verifyToken key now token = .invalid ∨ verifyToken key now token = .expired →
       routeGuard key now token = .unauthenticated) := by
  refine ⟨?_, ?_, ?_, ?_⟩
  · intro key uid t0 now
    by_cases h : now < t0 + sessionMaxAge <;>
      simp [guardAccepts, routeGuard, verifyToken, issueToken, h]
  · intro key now token
    constructor
    · intro h
      match token with
      | [] => simp [guardAccepts, routeGuard, verifyToken] at h
      | [a] => simp [guardAccepts, routeGuard, verifyToken] at h
      | [a, b] => simp [guardAccepts, routeGuard, verifyToken] at h
      | a :: b :: c :: d :: rest => simp [guardAccepts, routeGuard, verifyToken] at h
      | [a, b, c] =>
        by_cases htag : c = macTag key [a, b]
        · by_cases hexp : now < b + sessionMaxAge
          · exact ⟨a, b, by rw [htag], hexp⟩
          · simp [guardAccepts, routeGuard, verifyToken, htag, hexp] at h
        · simp [guardAccepts, routeGuard, verifyToken, htag] at h
    · rintro ⟨uid, t0, rfl, hlt⟩
      simp [guardAccepts, routeGuard, verifyToken, hlt]
  · intro key uid t0 now i v hi hv
    interval_cases i
    · have hne : macTag key [uid, t0] ≠ macTag key [v, t0] := by
        intro h
        exact hv ((macTag_inj2 h).1.symm)
      simp only [issueToken, List.getD] at hv
      simp [guardAccepts, routeGuard, verifyToken, issueToken, List.set, hne]
    · have hne : macTag key [uid, t0] ≠ macTag key [uid, v] := by
        intro h
        exact hv ((macTag_inj2 h).2.symm)
      simp only [issueToken, List.getD] at hv
      simp [guardAccepts, routeGuard, verifyToken, issueToken, List.set, hne]
    · have hv2 : v ≠ macTag key [uid, t0] := by simpa [issueToken] using hv
      simp [guardAccepts, routeGuard, verifyToken, issueToken, List.set, hv2]
  · intro key now token h
    rcases h with h | h <;> simp [routeGuard, h]

/-- Witness for `session_token_acceptance`: a fresh token is accepted, an
expired one is not, and a token with its first component changed is
rejected. -/
theorem session_token_acceptance_witness :
    guardAccepts 5 100 (issueToken 5 7 90) = true ∧
    guardAccepts 5 (90 + sessionMaxAge) (issueToken 5 7 90) = false ∧
    guardAccepts 5 100 ((issueToken 5 7 90).set 0 99) = false := by
  refine ⟨?_, ?_, ?_⟩
  · exact (session_token_acceptance.1 5 7 90 100).mpr (by decide)
  · cases hb : guardAccepts 5 (90 + sessionMaxAge) (issueToken 5 7 90)
    · rfl
    · exact absurd ((session_token_acceptance.1 5 7 90 (90 + sessionMaxAge)).mp hb) (by omega)
  · exact session_token_acceptance.2.2.1 5 7 90 100 0 99 (by decide) (by decide)

/-- C5 (divergence evidence): a record whose message carries a 10-digit
phone number is masked to `***-***-1234` by both primary transports
(console and rotating file) — including its string-valued metadata
fields — but the exceptionHandlers and rejectionHandlers sinks have no
`maskPhoneNumbers` format and write the number through unmasked, contrary
to the claim (and to the module's own "only last 4 digits visible in all
log output" header). -/
theorem exception_sinks_bypass_masking :
    (loggerTransports.map fun t =>
        (transportOutput t ⟨"Unhandled error for caller 2125551234", []⟩).message) =
      ["Unhandled error for caller ***-***-1234",
       "Unhandled error for caller ***-***-1234"] ∧
    ((exceptionTransports ++ rejectionTransports).map fun t =>
        (transportOutput t ⟨"Unhandled error for caller 2125551234", []⟩).message) =
      ["Unhandled error for caller 2125551234",
       "Unhandled error for caller 2125551234",
       "Unhandled error for caller 2125551234",
       "Unhandled error for caller 2125551234"] ∧
    (transportOutput ⟨"app-file", true⟩
        ⟨"request done", [("err", "timeout for (212) 555-1234"), ("elapsed", "12ms")]⟩).meta =
      [("err", "timeout for ***-***-1234"), ("elapsed", "12ms")] ∧
    maskLogText "212.555.1234" = "***-***-1234" ∧
    maskLogText "212-555-1234" = "***-***-1234" ∧
    maskLogText "(212) 555-1234" = "***-***-1234" ∧
    maskLogText "2125551234" = "***-***-1234" ∧
    "Unhandled error for caller 2125551234" ≠
      "Unhandled error for caller ***-***-1234" := by
  exact ⟨by decide, by decide, by decide, by decide, by decide, by decide, by decide, by decide⟩
